import Mathlib

/-!
Verification development for the zo-local-memory repository.

This file gives a shallow embedding of `src/local_memory_client.py` and
`src/memory_integration.py` and proves the specified properties about it.

Modelling conventions:
- The Ollama embedding gateway (`LocalMemoryClient._embed`) is a black box;
  it is passed in as a function `embedF : String → Except String Embedding`
  (`.error` models a raised transport/timeout/malformed-response exception).
- The Turso store (`LocalMemoryClient._turso_execute`) executes one SQL
  statement per operation.  The database is a list of rows and the semantics
  of the concrete SQL strings the client issues (filter by `agent_id`,
  `ORDER BY ... LIMIT ?`, `INSERT`, `DELETE`) are embedded directly.  SQL
  leaves the order of ties unspecified; `ORDER BY` is modelled by a stable
  insertion sort on the key.  A store-reported error (`"error" in results[0]`)
  is injected through a `tursoErr : Option String` parameter.
- `vector_distance_cos`, computed inside the store, is a black box
  `dist : Embedding → Embedding → ℚ`; embedding coordinates and similarity
  values are modelled as exact rationals.
- Python exceptions are embedded as a typed error `MemErr`; the constructor
  records the taxonomy kind of the spec (`ValueError` → `invalidArgument`,
  Ollama failure → `embeddingUnavailable`, Turso failure → `storeError`,
  the `"Memory not found"` exception → `notFound`, `NotImplementedError` →
  `featureUnavailable`) and the exact Python message string.
- Each operation also returns the list of network calls it performed, in
  order, so that "no network call is made" is a statement about the model.
- Unix timestamps are integers; `_format_timestamp` renders them as
  ISO-8601 strings for display only (a strictly monotone injection), so
  results carry the integer timestamp.
- `query_time_ms` is wall-clock time and is not modelled.
-/

namespace ZoLocalMemory

/-- Metadata dictionaries (`metadata: Optional[Dict]`): finite maps from
string keys to JSON-compatible values; values are modelled by their JSON
serialization, since no code path inspects their structure. -/
abbrev Meta := List (String × String)

/-- Embeddings are fixed-length float vectors, modelled with exact
rational coordinates. -/
abbrev Embedding := List ℚ

/-- One row of the `memories` table, as inserted by
`LocalMemoryClient.store` (columns `id, agent_id, content, embedding,
metadata, created_at, updated_at`).  The `metadata` column holds the JSON
text `json.dumps(metadata) if metadata else "{}"`, represented by its
parsed value. -/
structure MemoryRow where
  id : String
  agent_id : String
  content : String
  embedding : Embedding
  metadata : Meta
  created_at : ℤ
  updated_at : ℤ
deriving DecidableEq, Repr

/-- The state of the `memories` table. -/
abbrev DB := List MemoryRow

/-- Taxonomy kind of an error, as in section 7 of the specification. -/
inductive ErrKind where
  | invalidArgument
  | embeddingUnavailable
  | storeError
  | notFound
  | featureUnavailable
deriving DecidableEq, Repr

/-- A raised Python exception: the taxonomy kind plus the exact message. -/
inductive MemErr where
  | invalidArgument (msg : String)
  | embeddingUnavailable (msg : String)
  | storeError (msg : String)
  | notFound (msg : String)
  | featureUnavailable (msg : String)
deriving DecidableEq, Repr

/-- The message carried by an exception (`str(e)` in Python). -/
def MemErr.message : MemErr → String
  | .invalidArgument m => m
  | .embeddingUnavailable m => m
  | .storeError m => m
  | .notFound m => m
  | .featureUnavailable m => m

/-- The taxonomy kind of an exception. -/
def MemErr.kind : MemErr → ErrKind
  | .invalidArgument _ => .invalidArgument
  | .embeddingUnavailable _ => .embeddingUnavailable
  | .storeError _ => .storeError
  | .notFound _ => .notFound
  | .featureUnavailable _ => .featureUnavailable

/-- A network call performed by the client: a POST to the Ollama
`/api/embed` endpoint, or a POST of a statement batch to Turso. -/
inductive NetCall where
  | ollamaEmbed (text : String)
  | tursoExec
deriving DecidableEq, Repr

/-- Client configuration (`LocalMemoryClient.__init__`).  The service URLs
only select the transport endpoints, which are abstracted away; the
behaviourally relevant configuration is `agent_id`. -/
structure Client where
  agent_id : String
deriving DecidableEq, Repr

/-- Return value of `LocalMemoryClient.store` (`tokens_used` is always 0
for the local client; `created_at` is the integer timestamp that the code
renders in ISO-8601). -/
structure StoreResult where
  id : String
  text : String
  created_at : ℤ
  tokens_used : ℕ
deriving DecidableEq, Repr

/-- One formatted search result row. -/
structure SearchItem where
  id : String
  text : String
  metadata : Meta
  created_at : ℤ
  similarity : ℚ
deriving DecidableEq, Repr

/-- Return value of `LocalMemoryClient.search` (without the unmodelled
wall-clock `query_time_ms` field). -/
structure SearchResult where
  results : List SearchItem
  namespace_str : String
  mode : String
deriving DecidableEq, Repr

/-- The `memory` payload returned by `LocalMemoryClient.get`. -/
structure MemoryOut where
  id : String
  text : String
  metadata : Meta
  created_at : ℤ
deriving DecidableEq, Repr

/-- Rows of the agent partition: `WHERE agent_id = ?`. -/
def agentRows (c : Client) (db : DB) : List MemoryRow :=
  db.filter fun r => decide (r.agent_id = c.agent_id)

/-- Rows produced by the chronological-mode statement
`SELECT id, content, metadata, created_at FROM memories WHERE agent_id = ?
ORDER BY created_at DESC LIMIT ?`, already formatted:
`similarity` is the constant 1.0 sentinel. -/
def chronoItems (c : Client) (db : DB) (limit : ℕ) : List SearchItem :=
  ((List.insertionSort (fun a b => b.created_at ≤ a.created_at)
      (agentRows c db)).take limit).map fun r =>
    { id := r.id, text := r.content, metadata := r.metadata,
      created_at := r.created_at, similarity := 1 }

/-- Rows produced by the vector-mode statement
`SELECT id, content, metadata, created_at,
vector_distance_cos(embedding, vector32(?)) as similarity FROM memories
WHERE agent_id = ? ORDER BY similarity ASC LIMIT ?`, already formatted:
the SQL column named `similarity` is the cosine distance, and the client
converts it with `similarity = 1.0 - distance` (no clamping). -/
def vectorItems (c : Client) (dist : Embedding → Embedding → ℚ) (db : DB)
    (qemb : Embedding) (limit : ℕ) : List SearchItem :=
  ((List.insertionSort (fun a b => dist a.embedding qemb ≤ dist b.embedding qemb)
      (agentRows c db)).take limit).map fun r =>
    { id := r.id, text := r.content, metadata := r.metadata,
      created_at := r.created_at, similarity := 1 - dist r.embedding qemb }

/-- Embedding of `LocalMemoryClient.store`.  `freshId` is the generated
`"mem_" + uuid4().hex[:12]` identifier and `now` the `int(time.time())`
timestamp, both supplied by the environment.  On success the new row is
appended to the table.  Note `json.dumps(metadata) if metadata else "{}"`:
an absent or empty dictionary is stored as the empty JSON object. -/
def store (c : Client) (embedF : String → Except String Embedding)
    (tursoErr : Option String) (freshId : String) (now : ℤ) (db : DB)
    (text : String) (metadata : Option Meta) :
    List NetCall × Except MemErr (DB × StoreResult) :=
  if 100000 < text.length then
    ([], .error (.invalidArgument "Text exceeds 100k character limit"))
  else
    match embedF text with
    | .error e =>
        ([.ollamaEmbed text],
         .error (.embeddingUnavailable ("Ollama embedding error: " ++ e)))
    | .ok emb =>
        match tursoErr with
        | some e =>
            ([.ollamaEmbed text, .tursoExec],
             .error (.storeError ("Turso storage error: " ++ e)))
        | none =>
            let meta_json : Meta := metadata.getD []
            let row : MemoryRow :=
              { id := freshId, agent_id := c.agent_id, content := text,
                embedding := emb, metadata := meta_json,
                created_at := now, updated_at := now }
            ([.ollamaEmbed text, .tursoExec],
             .ok (db ++ [row],
                  { id := freshId, text := text, created_at := now,
                    tokens_used := 0 }))

/-- Embedding of `LocalMemoryClient.search`.  The `query` argument is
`Optional[str]`; the Python truthiness test `if not query` is the test
`query.getD "" = ""`. -/
def search (c : Client) (embedF : String → Except String Embedding)
    (tursoErr : Option String) (dist : Embedding → Embedding → ℚ) (db : DB)
    (query : Option String) (limit : ℕ) (mode : String) :
    List NetCall × Except MemErr SearchResult :=
  if ¬(mode = "vector" ∨ mode = "chronological" ∨ mode = "hybrid") then
    ([], .error (.invalidArgument
      "mode must be \x27vector\x27, \x27chronological\x27, or \x27hybrid\x27"))
  else if mode = "chronological" then
    match tursoErr with
    | some e => ([.tursoExec], .error (.storeError ("Turso search error: " ++ e)))
    | none =>
        ([.tursoExec],
         .ok { results := chronoItems c db limit,
               namespace_str := "agent_" ++ c.agent_id, mode := mode })
  else
    if query.getD "" = "" then
      ([], .error (.invalidArgument ("query required for " ++ mode ++ " search")))
    else
      match embedF (query.getD "") with
      | .error e =>
          ([.ollamaEmbed (query.getD "")],
           .error (.embeddingUnavailable ("Ollama embedding error: " ++ e)))
      | .ok qemb =>
          match tursoErr with
          | some e =>
              ([.ollamaEmbed (query.getD ""), .tursoExec],
               .error (.storeError ("Turso search error: " ++ e)))
          | none =>
              ([.ollamaEmbed (query.getD ""), .tursoExec],
               .ok { results := vectorItems c dist db qemb limit,
                     namespace_str := "agent_" ++ c.agent_id, mode := mode })

/-- Embedding of `LocalMemoryClient.get`:
`SELECT id, content, metadata, created_at FROM memories WHERE id = ? AND
agent_id = ?`, then `rows[0]` if any row matched, else the
`"Memory not found"` exception. -/
def get (c : Client) (tursoErr : Option String) (db : DB)
    (memory_id : String) : List NetCall × Except MemErr MemoryOut :=
  match tursoErr with
  | some e => ([.tursoExec], .error (.storeError ("Turso get error: " ++ e)))
  | none =>
      match db.filter fun r => decide (r.id = memory_id ∧ r.agent_id = c.agent_id) with
      | [] => ([.tursoExec], .error (.notFound ("Memory not found: " ++ memory_id)))
      | row :: _ =>
          ([.tursoExec],
           .ok { id := row.id, text := row.content, metadata := row.metadata,
                 created_at := row.created_at })

/-- Embedding of `LocalMemoryClient.delete`:
`DELETE FROM memories WHERE id = ? AND agent_id = ?`.  The operation
succeeds whether or not any row matched. -/
def delete (c : Client) (tursoErr : Option String) (db : DB)
    (memory_id : String) : List NetCall × Except MemErr DB :=
  match tursoErr with
  | some e => ([.tursoExec], .error (.storeError ("Turso delete error: " ++ e)))
  | none =>
      ([.tursoExec],
       .ok (db.filter fun r => decide (¬(r.id = memory_id ∧ r.agent_id = c.agent_id))))

/-- Embedding of `LocalMemoryClient.get_related`: it first resolves the
target row (`SELECT embedding FROM memories WHERE id = ? AND agent_id = ?`),
raising `"Memory not found"` if absent, and otherwise raises
`NotImplementedError` because the stored `F32_BLOB` embedding cannot be
read back as a reusable vector.  The `min_similarity` argument is never
consulted. -/
def get_related (c : Client) (tursoErr : Option String) (db : DB)
    (memory_id : String) (min_similarity : ℚ) :
    List NetCall × Except MemErr SearchResult :=
  match tursoErr with
  | some e =>
      ([.tursoExec], .error (.storeError ("Turso get_related error: " ++ e)))
  | none =>
      match db.filter fun r => decide (r.id = memory_id ∧ r.agent_id = c.agent_id) with
      | [] => ([.tursoExec], .error (.notFound ("Memory not found: " ++ memory_id)))
      | _ :: _ =>
          ([.tursoExec],
           .error (.featureUnavailable
             "get_related requires embedding extraction from F32_BLOB - not yet implemented"))

/-- Return value of `retrieve_memories` in `memory_integration.py`
(without the unmodelled `query_time_ms`): `found`, the threshold-filtered
`memories`, and the `error` string present exactly when the retrieval
failed. -/
structure RetrieveResult where
  found : Bool
  memories : List SearchItem
  error : Option String
deriving DecidableEq, Repr

/-- Embedding of `memory_integration.retrieve_memories`: a vector-mode
search whose results are filtered by `similarity >= min_similarity`; any
exception is caught and converted into a found-nothing result carrying
`str(e)`.  The function constructs its own client from the environment;
that client is the `c` parameter. -/
def retrieve_memories (c : Client) (embedF : String → Except String Embedding)
    (tursoErr : Option String) (dist : Embedding → Embedding → ℚ) (db : DB)
    (query : String) (min_similarity : ℚ) (limit : ℕ) : RetrieveResult :=
  match (search c embedF tursoErr dist db (some query) limit "vector").2 with
  | .error e => { found := false, memories := [], error := some e.message }
  | .ok res =>
      let relevant := res.results.filter fun m => decide (min_similarity ≤ m.similarity)
      { found := decide (0 < relevant.length), memories := relevant, error := none }

/-- Two-decimal rendering of a similarity value, for the Python
`f"{similarity:.2f}"` interpolation.  Display only: no proved property
depends on this string, and the exact rounding of binary floats is not
modelled. -/
def fmt2 (q : ℚ) : String :=
  let n : ℤ := round (q * 100)
  let sign := if n < 0 then "-" else ""
  let m := n.natAbs
  sign ++ toString (m / 100) ++ "." ++ (if m % 100 < 10 then "0" else "") ++ toString (m % 100)

/-- One entry of `format_memories_for_context` (index `i` counts from 1). -/
def formatOneMemory (i : ℕ) (mem : SearchItem) : String :=
  "**Memory " ++ toString i ++ "** (similarity: " ++ fmt2 mem.similarity
    ++ ", id: " ++ mem.id ++ ")\n"
    ++ "*Type: " ++ ((mem.metadata.lookup "context_type").getD "general") ++ "*\n"
    ++ mem.text ++ "\n\n"

/-- Embedding of `memory_integration.format_memories_for_context`. -/
def format_memories_for_context (memories : List SearchItem) : String :=
  if memories.isEmpty then ""
  else
    "## Relevant Memories\n\n"
      ++ String.join (memories.enum.map fun p => formatOneMemory (p.1 + 1) p.2)

/-- The four fixed retrieval queries of `initialize_session`. -/
def bridgesQuery : String := "CONVERSATION-BRIDGE recent session momentum pending"

/-- Second fixed query of `initialize_session`. -/
def prefsQuery : String := "PREFERENCE PATTERN PRINCIPLE user preferences habits"

/-- Third fixed query of `initialize_session`. -/
def projectsQuery : String := "PROJECT active current working building status"

/-- Fourth fixed query of `initialize_session`. -/
def consciousnessQuery : String := "CONSCIOUSNESS pattern observation cognitive evolution"

/-- The sentinel returned by `initialize_session` when no pass found
anything. -/
def freshStart : String := "No initialization memories found. Fresh start."

/-- The `context_parts` list assembled by `initialize_session`: for each
category in fixed order, a heading and a formatted body when the pass
found qualifying memories, and nothing otherwise. -/
def initSessionParts (bridges prefs projects consciousness : RetrieveResult) :
    List String :=
  (if bridges.found then
      ["## Recent Session Context\n", format_memories_for_context bridges.memories]
    else []) ++
  (if prefs.found then
      ["## User Preferences & Patterns\n", format_memories_for_context prefs.memories]
    else []) ++
  (if projects.found then
      ["## Active Projects\n", format_memories_for_context projects.memories]
    else []) ++
  (if consciousness.found then
      ["## Cognitive Patterns\n", format_memories_for_context consciousness.memories]
    else [])

/-- Embedding of `memory_integration.initialize_session`: four retrieval
passes with fixed queries, thresholds and limits; `t1..t4` are the Turso
outcomes of the four passes. -/
def initialize_session (c : Client) (embedF : String → Except String Embedding)
    (t1 t2 t3 t4 : Option String) (dist : Embedding → Embedding → ℚ)
    (db : DB) : String :=
  let bridges := retrieve_memories c embedF t1 dist db bridgesQuery 0.6 3
  let prefs := retrieve_memories c embedF t2 dist db prefsQuery 0.65 5
  let projects := retrieve_memories c embedF t3 dist db projectsQuery 0.65 3
  let consciousness := retrieve_memories c embedF t4 dist db consciousnessQuery 0.65 3
  let parts := initSessionParts bridges prefs projects consciousness
  if parts.isEmpty then freshStart
  else String.intercalate "\n" parts

/-! Helper lemmas about the retrieval pipeline. -/

/-- Membership in the agent partition. -/
theorem mem_agentRows {c : Client} {db : DB} {r : MemoryRow} :
    r ∈ agentRows c db ↔ r ∈ db ∧ r.agent_id = c.agent_id := by
  simp [agentRows, List.mem_filter]

/-- Rows surviving the sort-then-limit pipeline come from the input. -/
theorem mem_of_mem_sort_take {α : Type} {l : List α} {le : α → α → Prop}
    [DecidableRel le] {n : ℕ} {a : α}
    (h : a ∈ (List.insertionSort le l).take n) : a ∈ l :=
  (List.perm_insertionSort le l).mem_iff.1 ((List.take_sublist n _).subset h)

/-- The sort-then-limit pipeline is sorted by the sorting relation. -/
theorem pairwise_sort_take {α : Type} (le : α → α → Prop) [DecidableRel le]
    (htrans : ∀ a b c, le a b → le b c → le a c)
    (htotal : ∀ a b, le a b ∨ le b a) (l : List α) (n : ℕ) :
    ((List.insertionSort le l).take n).Pairwise le := by
  haveI : IsTotal α le := ⟨htotal⟩
  haveI : IsTrans α le := ⟨htrans⟩
  exact List.Pairwise.sublist (List.take_sublist n _)
    (List.sorted_insertionSort le l)

/-- Every chronological-mode item is the projection of an own-agent row. -/
theorem mem_chronoItems {c : Client} {db : DB} {limit : ℕ} {it : SearchItem}
    (h : it ∈ chronoItems c db limit) :
    ∃ row ∈ db, row.agent_id = c.agent_id ∧ it.id = row.id ∧
      it.text = row.content ∧ it.metadata = row.metadata ∧
      it.created_at = row.created_at ∧ it.similarity = 1 := by
  rcases List.mem_map.1 h with ⟨row, hrow, hproj⟩
  have hdb := mem_agentRows.1 (mem_of_mem_sort_take hrow)
  exact ⟨row, hdb.1, hdb.2, by rw [← hproj], by rw [← hproj], by rw [← hproj],
    by rw [← hproj], by rw [← hproj]⟩

/-- Every vector-mode item is the projection of an own-agent row, with
similarity exactly one minus its cosine distance from the query vector. -/
theorem mem_vectorItems {c : Client} {dist : Embedding → Embedding → ℚ}
    {db : DB} {qemb : Embedding} {limit : ℕ} {it : SearchItem}
    (h : it ∈ vectorItems c dist db qemb limit) :
    ∃ row ∈ db, row.agent_id = c.agent_id ∧ it.id = row.id ∧
      it.text = row.content ∧ it.metadata = row.metadata ∧
      it.created_at = row.created_at ∧
      it.similarity = 1 - dist row.embedding qemb := by
  rcases List.mem_map.1 h with ⟨row, hrow, hproj⟩
  have hdb := mem_agentRows.1 (mem_of_mem_sort_take hrow)
  exact ⟨row, hdb.1, hdb.2, by rw [← hproj], by rw [← hproj], by rw [← hproj],
    by rw [← hproj], by rw [← hproj]⟩

/-- Claim C5: a store call on a text longer than 100,000 characters fails
with the `InvalidArgument` length error before any network call is made:
the call trace is empty (neither Ollama nor Turso is contacted), the
outcome is the error, and in particular no new database state is produced,
for every embedding gateway and store behaviour. -/
theorem claim_C5_long_text_fails_fast (c : Client)
    (embedF : String → Except String Embedding) (tursoErr : Option String)
    (freshId : String) (now : ℤ) (db : DB) (text : String)
    (metadata : Option Meta) (h : 100000 < text.length) :
    store c embedF tursoErr freshId now db text metadata =
      ([], .error (.invalidArgument "Text exceeds 100k character limit")) := by
  simp [store, h]

/-- Witness for claim C5 at a concrete 100,001-character text. -/
theorem claim_C5_witness :
    100000 < (String.mk (List.replicate 100001 'a')).length ∧
    store ⟨"fork-main"⟩ (fun _ => .ok [1]) none "mem_000000000000" 0 []
        (String.mk (List.replicate 100001 'a')) none =
      ([], .error (.invalidArgument "Text exceeds 100k character limit")) := by
  have hlen : 100000 < (String.mk (List.replicate 100001 'a')).length := by
    show 100000 < (List.replicate 100001 'a').length
    rw [List.length_replicate]
    norm_num
  exact ⟨hlen, claim_C5_long_text_fails_fast _ _ _ _ _ _ _ _ hlen⟩

/-- Claim C8: `get_related` never returns results.  Whatever the store
outcome it never succeeds; when the store responds and no row with the
requested id exists under the client's agent it fails with the
`"Memory not found"` error (`NotFound`); and when such a row exists it
fails closed with the `NotImplementedError` (`FeatureUnavailable`)
rather than degrading to a text-based approximation. -/
theorem claim_C8_get_related_fails_closed (c : Client) (tursoErr : Option String)
    (db : DB) (memory_id : String) (min_similarity : ℚ) :
    (∀ r, (get_related c tursoErr db memory_id min_similarity).2 ≠ .ok r) ∧
    ((¬∃ row ∈ db, row.id = memory_id ∧ row.agent_id = c.agent_id) →
      tursoErr = none →
      (get_related c tursoErr db memory_id min_similarity).2 =
        .error (.notFound ("Memory not found: " ++ memory_id))) ∧
    ((∃ row ∈ db, row.id = memory_id ∧ row.agent_id = c.agent_id) →
      tursoErr = none →
      (get_related c tursoErr db memory_id min_similarity).2 =
        .error (.featureUnavailable
          "get_related requires embedding extraction from F32_BLOB - not yet implemented")) := by
  refine ⟨?_, ?_, ?_⟩
  · intro r
    unfold get_related
    cases tursoErr with
    | some e => simp
    | none =>
      cases (db.filter fun r => decide (r.id = memory_id ∧ r.agent_id = c.agent_id)) <;>
        simp
  · intro habs ht
    subst ht
    have hf : (db.filter fun r =>
        decide (r.id = memory_id ∧ r.agent_id = c.agent_id)) = [] := by
      rw [List.filter_eq_nil_iff]
      intro a ha
      simp only [decide_eq_true_eq]
      exact fun hc => habs ⟨a, ha, hc⟩
    unfold get_related
    rw [hf]
  · rintro ⟨row, hrow, hid, hag⟩ ht
    subst ht
    have hmem : row ∈ db.filter
        (fun r => decide (r.id = memory_id ∧ r.agent_id = c.agent_id)) :=
      List.mem_filter.2 ⟨hrow, by simp [hid, hag]⟩
    unfold get_related
    cases hf : (db.filter fun r =>
        decide (r.id = memory_id ∧ r.agent_id = c.agent_id)) with
    | nil => rw [hf] at hmem; cases hmem
    | cons a l => simp

/-- Witness for claim C8: one stored row for the requesting agent, so the
lookup fails closed with `FeatureUnavailable`. -/
theorem claim_C8_witness :
    (¬∃ row ∈ ([] : DB), row.id = "mem_x" ∧ row.agent_id = "fork-main") ∧
    (get_related ⟨"fork-main"⟩ none [] "mem_x" 0).2 =
      .error (.notFound ("Memory not found: " ++ "mem_x")) := by
  have habs : ¬∃ row ∈ ([] : DB), row.id = "mem_x" ∧ row.agent_id = "fork-main" := by
    simp
  exact ⟨habs,
    (claim_C8_get_related_fails_closed ⟨"fork-main"⟩ none [] "mem_x" 0).2.1 habs rfl⟩

/-- Claim C10: deleting an id and then getting it on the same client fails
with `NotFound`; and deleting an id with no matching record under the
client's agent (in particular an id stored only under a different agent)
is a successful no-op that leaves the table unchanged. -/
theorem claim_C10_delete_then_get (c : Client) (db : DB) (memory_id : String) :
    (∀ db', (delete c none db memory_id).2 = .ok db' →
      (get c none db' memory_id).2 =
        .error (.notFound ("Memory not found: " ++ memory_id))) ∧
    ((¬∃ row ∈ db, row.id = memory_id ∧ row.agent_id = c.agent_id) →
      (delete c none db memory_id).2 = .ok db) := by
  constructor
  · intro db' hdel
    have hdb' : db' = db.filter
        (fun r => decide (¬(r.id = memory_id ∧ r.agent_id = c.agent_id))) := by
      simpa [delete] using hdel.symm
    have hf : (db'.filter
        fun r => decide (r.id = memory_id ∧ r.agent_id = c.agent_id)) = [] := by
      rw [List.filter_eq_nil_iff]
      intro a ha
      rw [hdb'] at ha
      have := (List.mem_filter.1 ha).2
      simp only [decide_eq_true_eq] at this ⊢
      exact this
    unfold get
    rw [hf]
  · intro habs
    have hall : ∀ r ∈ db,
        (decide (¬(r.id = memory_id ∧ r.agent_id = c.agent_id))) = true := by
      intro r hr
      simp only [decide_eq_true_eq]
      exact fun hc => habs ⟨r, hr, hc⟩
    have hfil : db.filter
        (fun r => decide (¬(r.id = memory_id ∧ r.agent_id = c.agent_id))) = db :=
      List.filter_eq_self.2 hall
    show Except.ok (db.filter
      fun r => decide (¬(r.id = memory_id ∧ r.agent_id = c.agent_id))) = Except.ok db
    rw [hfil]

/-- Fixture row for the claim C10 witness: a record of agent `other`. -/
def wRowOther : MemoryRow :=
  { id := "mem_b", agent_id := "other", content := "t", embedding := [1],
    metadata := [], created_at := 5, updated_at := 5 }

/-- Witness for claim C10: a table holding only another agent's record;
deleting that id through this client is a no-op leaving the record in
place. -/
theorem claim_C10_witness :
    (¬∃ row ∈ [wRowOther], row.id = "mem_b" ∧ row.agent_id = "fork-main") ∧
    (delete ⟨"fork-main"⟩ none [wRowOther] "mem_b").2 = .ok [wRowOther] := by
  have habs : ¬∃ row ∈ [wRowOther],
      row.id = "mem_b" ∧ row.agent_id = "fork-main" := by
    simp [wRowOther]
  exact ⟨habs, (claim_C10_delete_then_get ⟨"fork-main"⟩ _ "mem_b").2 habs⟩

/-- Every result row of any successful search, in any mode, is the
projection of a table row belonging to the requesting client's agent. -/
theorem search_ok_mem {c : Client} {embedF : String → Except String Embedding}
    {tursoErr : Option String} {dist : Embedding → Embedding → ℚ} {db : DB}
    {query : Option String} {limit : ℕ} {mode : String} {r : SearchResult}
    (h : (search c embedF tursoErr dist db query limit mode).2 = .ok r) :
    ∀ it ∈ r.results, ∃ row ∈ db, row.agent_id = c.agent_id ∧
      it.id = row.id ∧ it.text = row.content ∧ it.metadata = row.metadata ∧
      it.created_at = row.created_at := by
  intro it hit
  unfold search at h
  split at h
  · exact absurd h (by simp)
  · split at h
    · -- chronological mode
      split at h
      · exact absurd h (by simp)
      · simp only [Except.ok.injEq] at h
        rw [← h] at hit
        obtain ⟨row, hrow, hag, h1, h2, h3, h4, _⟩ := mem_chronoItems hit
        exact ⟨row, hrow, hag, h1, h2, h3, h4⟩
    · -- vector or hybrid mode
      split at h
      · exact absurd h (by simp)
      · split at h
        · exact absurd h (by simp)
        · split at h
          · exact absurd h (by simp)
          · simp only [Except.ok.injEq] at h
            rw [← h] at hit
            obtain ⟨row, hrow, hag, h1, h2, h3, h4, _⟩ := mem_vectorItems hit
            exact ⟨row, hrow, hag, h1, h2, h3, h4⟩

/-- Claim C1: strict per-agent isolation.  Every record returned by a
successful search (any of the three modes) or by a successful get is the
projection of a table row whose `agent_id` is the requesting client's
agent; consequently, when ids are globally unique, no id returned ever
belongs to a row of a different agent. -/
theorem claim_C1_agent_isolation (c : Client)
    (embedF : String → Except String Embedding) (tursoErr : Option String)
    (dist : Embedding → Embedding → ℚ) (db : DB) (query : Option String)
    (limit : ℕ) (mode : String) (memory_id : String) :
    (∀ r, (search c embedF tursoErr dist db query limit mode).2 = .ok r →
      ∀ it ∈ r.results, ∃ row ∈ db, row.agent_id = c.agent_id ∧
        it.id = row.id ∧ it.text = row.content ∧ it.metadata = row.metadata ∧
        it.created_at = row.created_at) ∧
    (∀ mo, (get c tursoErr db memory_id).2 = .ok mo →
      ∃ row ∈ db, row.agent_id = c.agent_id ∧ mo.id = row.id ∧
        mo.text = row.content ∧ mo.metadata = row.metadata ∧
        mo.created_at = row.created_at) ∧
    (db.Pairwise (fun r₁ r₂ => r₁.id ≠ r₂.id) →
      ∀ r, (search c embedF tursoErr dist db query limit mode).2 = .ok r →
        ∀ it ∈ r.results, ∀ row ∈ db, row.id = it.id →
          row.agent_id = c.agent_id) := by
  refine ⟨fun r h => search_ok_mem h, ?_, ?_⟩
  · intro mo h
    unfold get at h
    split at h
    · exact absurd h (by simp)
    · split at h
      · exact absurd h (by simp)
      · next row rest heq =>
        simp only [Except.ok.injEq] at h
        have hrow : row ∈ db.filter
            (fun r => decide (r.id = memory_id ∧ r.agent_id = c.agent_id)) := by
          rw [heq]; exact List.mem_cons_self _ _
        have hmem := List.mem_filter.1 hrow
        have hprops := hmem.2
        simp only [decide_eq_true_eq] at hprops
        exact ⟨row, hmem.1, hprops.2, by rw [← h], by rw [← h], by rw [← h],
          by rw [← h]⟩
  · intro huniq r hok it hit row hrow hid
    obtain ⟨row', hrow', hag', hid', _, _, _⟩ := search_ok_mem hok it hit
    have hsymm : Symmetric fun r₁ r₂ : MemoryRow => r₁.id ≠ r₂.id :=
      fun _ _ h e => h e.symm
    by_cases heq : row = row'
    · rw [heq]; exact hag'
    · exact absurd (hid.trans hid') (huniq.forall hsymm hrow hrow' heq)

/-- Fixture rows for the claim C1 witness: one record per agent. -/
def wRowA : MemoryRow :=
  { id := "mem_a", agent_id := "fork-main", content := "alpha",
    embedding := [1], metadata := [("context_type", "preference")],
    created_at := 10, updated_at := 10 }

/-- Second fixture row for the claim C1 witness, held by another agent. -/
def wRowB : MemoryRow :=
  { id := "mem_b", agent_id := "agent-b", content := "beta",
    embedding := [2], metadata := [], created_at := 20, updated_at := 20 }

/-- Witness for claim C1: on a table holding rows of two distinct agents,
a chronological search through agent `fork-main`'s client succeeds, and
its only result row is `fork-main`'s record, not agent `agent-b`'s. -/
theorem claim_C1_witness :
    (search ⟨"fork-main"⟩ (fun _ => .ok [1]) none (fun _ _ => 0)
        [wRowA, wRowB] none 10 "chronological").2 =
      .ok { results := [{ id := "mem_a", text := "alpha",
                          metadata := [("context_type", "preference")],
                          created_at := 10, similarity := 1 }],
            namespace_str := "agent_fork-main", mode := "chronological" } ∧
    (∃ row ∈ [wRowA, wRowB], row.agent_id = "fork-main" ∧
      ({ id := "mem_a", text := "alpha",
         metadata := [("context_type", "preference")],
         created_at := 10, similarity := 1 } : SearchItem).id = row.id ∧
      ({ id := "mem_a", text := "alpha",
         metadata := [("context_type", "preference")],
         created_at := 10, similarity := 1 } : SearchItem).text = row.content ∧
      ({ id := "mem_a", text := "alpha",
         metadata := [("context_type", "preference")],
         created_at := 10, similarity := 1 } : SearchItem).metadata = row.metadata ∧
      ({ id := "mem_a", text := "alpha",
         metadata := [("context_type", "preference")],
         created_at := 10, similarity := 1 } : SearchItem).created_at = row.created_at) := by
  have hok : (search ⟨"fork-main"⟩ (fun _ => .ok [1]) none (fun _ _ => 0)
      [wRowA, wRowB] none 10 "chronological").2 =
      .ok { results := [{ id := "mem_a", text := "alpha",
                          metadata := [("context_type", "preference")],
                          created_at := 10, similarity := 1 }],
            namespace_str := "agent_fork-main", mode := "chronological" } := by
    simp [search, chronoItems, agentRows, wRowA, wRowB, List.insertionSort]
  refine ⟨hok, ?_⟩
  exact (claim_C1_agent_isolation ⟨"fork-main"⟩ (fun _ => .ok [1]) none
      (fun _ _ => 0) [wRowA, wRowB] none 10 "chronological" "mem_a").1 _ hok _
    (List.mem_cons_self _ _)

/-- Claim C4: chronological search performs no embedding call (its only
network call is the store query) and is entirely independent of the query
argument and of the embedding gateway; on success it returns at most
`limit` records, in non-increasing `created_at` order, each carrying the
sentinel similarity 1.0. -/
theorem claim_C4_chronological (c : Client)
    (e₁ e₂ : String → Except String Embedding) (tursoErr : Option String)
    (d₁ d₂ : Embedding → Embedding → ℚ) (db : DB) (q₁ q₂ : Option String)
    (limit : ℕ) :
    search c e₁ tursoErr d₁ db q₁ limit "chronological" =
      search c e₂ tursoErr d₂ db q₂ limit "chronological" ∧
    (search c e₁ tursoErr d₁ db q₁ limit "chronological").1 =
      [NetCall.tursoExec] ∧
    (∀ r, (search c e₁ tursoErr d₁ db q₁ limit "chronological").2 = .ok r →
      r.results.length ≤ limit ∧
      r.results.Pairwise (fun a b => b.created_at ≤ a.created_at) ∧
      ∀ it ∈ r.results, it.similarity = 1) := by
  refine ⟨by simp [search], ?_, ?_⟩
  · cases tursoErr <;> simp [search]
  · intro r h
    have hr : r = { results := chronoItems c db limit,
                    namespace_str := "agent_" ++ c.agent_id,
                    mode := "chronological" } := by
      cases tursoErr with
      | some e => exact absurd h (by simp [search])
      | none =>
        have : (search c e₁ none d₁ db q₁ limit "chronological").2 =
            .ok { results := chronoItems c db limit,
                  namespace_str := "agent_" ++ c.agent_id,
                  mode := "chronological" } := by
          simp [search]
        rw [this] at h
        exact (Except.ok.inj h).symm
    subst hr
    refine ⟨?_, ?_, ?_⟩
    · simp only [chronoItems, List.length_map]
      exact (List.length_take_le _ _)
    · have hpw := pairwise_sort_take (fun a b : MemoryRow => b.created_at ≤ a.created_at)
        (fun a b c h1 h2 => le_trans h2 h1)
        (fun a b => le_total b.created_at a.created_at) (agentRows c db) limit
      exact List.pairwise_map.2 hpw
    · intro it hit
      obtain ⟨_, _, _, _, _, _, _, hsim⟩ := mem_chronoItems hit
      exact hsim

/-- Witness for claim C4: the result of the concrete chronological search
of the claim C1 witness is one record long, within the limit, sorted, and
carries similarity 1. -/
theorem claim_C4_witness :
    (search ⟨"fork-main"⟩ (fun _ => .ok [1]) none (fun _ _ => 0)
        [wRowA, wRowB] none 10 "chronological").2 =
      .ok { results := [{ id := "mem_a", text := "alpha",
                          metadata := [("context_type", "preference")],
                          created_at := 10, similarity := 1 }],
            namespace_str := "agent_fork-main", mode := "chronological" } ∧
    ([({ id := "mem_a", text := "alpha",
          metadata := [("context_type", "preference")],
          created_at := 10, similarity := 1 } : SearchItem)].length ≤ 10 ∧
     [({ id := "mem_a", text := "alpha",
          metadata := [("context_type", "preference")],
          created_at := 10, similarity := 1 } : SearchItem)].Pairwise
        (fun a b => b.created_at ≤ a.created_at) ∧
     ∀ it ∈ [({ id := "mem_a", text := "alpha",
                 metadata := [("context_type", "preference")],
                 created_at := 10, similarity := 1 } : SearchItem)],
        it.similarity = 1) := by
  have hok : (search ⟨"fork-main"⟩ (fun _ => .ok [1]) none (fun _ _ => 0)
      [wRowA, wRowB] none 10 "chronological").2 =
      .ok { results := [{ id := "mem_a", text := "alpha",
                          metadata := [("context_type", "preference")],
                          created_at := 10, similarity := 1 }],
            namespace_str := "agent_fork-main", mode := "chronological" } := by
    simp [search, chronoItems, agentRows, wRowA, wRowB, List.insertionSort]
  exact ⟨hok, (claim_C4_chronological ⟨"fork-main"⟩ (fun _ => .ok [1])
    (fun _ => .ok [1]) none (fun _ _ => 0) (fun _ _ => 0) [wRowA, wRowB]
    none none 10).2.2 _ hok⟩

/-- Claim C3: a successful vector-mode search (query present and
non-empty, embedding obtained, store responding) returns each record with
`similarity` exactly `1 - distance(stored embedding, query embedding)` —
the raw unclamped value, whatever the distance — and the records are
ordered by non-decreasing distance, that is non-increasing similarity. -/
theorem claim_C3_vector_similarity (c : Client)
    (embedF : String → Except String Embedding)
    (dist : Embedding → Embedding → ℚ) (db : DB) (q : String) (limit : ℕ)
    (qemb : Embedding) (hq : q ≠ "") (he : embedF q = .ok qemb) :
    (search c embedF none dist db (some q) limit "vector").2 =
      .ok { results := vectorItems c dist db qemb limit,
            namespace_str := "agent_" ++ c.agent_id, mode := "vector" } ∧
    (∀ it ∈ vectorItems c dist db qemb limit, ∃ row ∈ db,
      row.agent_id = c.agent_id ∧ it.id = row.id ∧
      it.similarity = 1 - dist row.embedding qemb) ∧
    (vectorItems c dist db qemb limit).Pairwise
      (fun a b => b.similarity ≤ a.similarity) := by
  refine ⟨by simp [search, hq, he], ?_, ?_⟩
  · intro it hit
    obtain ⟨row, hrow, hag, h1, _, _, _, hsim⟩ := mem_vectorItems hit
    exact ⟨row, hrow, hag, h1, hsim⟩
  · have hpw := pairwise_sort_take
      (fun a b : MemoryRow => dist a.embedding qemb ≤ dist b.embedding qemb)
      (fun a b c h1 h2 => le_trans h1 h2) (fun a b => le_total _ _)
      (agentRows c db) limit
    refine List.pairwise_map.2 (hpw.imp ?_)
    intro a b h
    exact sub_le_sub_left h 1

/-- Witness for claim C3: a concrete vector search over a one-row table,
with the black-box distance returning 0, yields that row with similarity
exactly 1 - 0. -/
theorem claim_C3_witness :
    ("hello" ≠ "") ∧
    ((fun _ : String => (.ok [1] : Except String Embedding)) "hello" = .ok [1]) ∧
    (search ⟨"fork-main"⟩ (fun _ => .ok [1]) none (fun _ _ => 0) [wRowA]
        (some "hello") 10 "vector").2 =
      .ok { results := [{ id := "mem_a", text := "alpha",
                          metadata := [("context_type", "preference")],
                          created_at := 10, similarity := 1 - 0 }],
            namespace_str := "agent_fork-main", mode := "vector" } := by
  have hq : "hello" ≠ "" := by decide
  have he : (fun _ : String => (.ok [1] : Except String Embedding)) "hello" =
      .ok [1] := rfl
  refine ⟨hq, he, ?_⟩
  have h := (claim_C3_vector_similarity ⟨"fork-main"⟩ (fun _ => .ok [1])
    (fun _ _ => 0) [wRowA] "hello" 10 [1] hq he).1
  rw [h]
  simp [vectorItems, agentRows, wRowA, List.insertionSort]

/-- Claim C2: round-trip.  A successful store of a text and a metadata
dictionary (text within the length bound, embedding obtained, store
responding, generated id fresh) appends exactly one row, and a subsequent
get on the returned id through the same client succeeds and returns that
text and that metadata dictionary. -/
theorem claim_C2_store_get_roundtrip (c : Client)
    (embedF : String → Except String Embedding) (freshId : String) (now : ℤ)
    (db : DB) (text : String) (m : Meta) (emb : Embedding)
    (hlen : text.length ≤ 100000) (he : embedF text = .ok emb)
    (hfresh : ∀ row ∈ db, row.id ≠ freshId) :
    (store c embedF none freshId now db text (some m)).2 =
      .ok (db ++ [{ id := freshId, agent_id := c.agent_id, content := text,
                    embedding := emb, metadata := m, created_at := now,
                    updated_at := now }],
           { id := freshId, text := text, created_at := now,
             tokens_used := 0 }) ∧
    (get c none
        (db ++ [{ id := freshId, agent_id := c.agent_id, content := text,
                  embedding := emb, metadata := m, created_at := now,
                  updated_at := now }]) freshId).2 =
      .ok { id := freshId, text := text, metadata := m, created_at := now } := by
  have hnot : ¬(100000 < text.length) := not_lt.2 hlen
  constructor
  · simp [store, hnot, he]
  · have hnil : (db.filter
        fun r => decide (r.id = freshId ∧ r.agent_id = c.agent_id)) = [] := by
      rw [List.filter_eq_nil_iff]
      intro a ha
      simp only [decide_eq_true_eq]
      exact fun hc => hfresh a ha hc.1
    have hfa : ((db ++ [({ id := freshId, agent_id := c.agent_id,
                           content := text, embedding := emb, metadata := m,
                           created_at := now,
                           updated_at := now } : MemoryRow)]).filter
          fun r => decide (r.id = freshId ∧ r.agent_id = c.agent_id)) =
        [{ id := freshId, agent_id := c.agent_id, content := text,
           embedding := emb, metadata := m, created_at := now,
           updated_at := now }] := by
      rw [List.filter_append, hnil]
      simp
    unfold get
    rw [hfa]

/-- Witness for claim C2 at a concrete store followed by a get. -/
theorem claim_C2_witness :
    ("hello world".length ≤ 100000) ∧
    (get ⟨"fork-main"⟩ none
        ([] ++ [{ id := "mem_000000000000", agent_id := "fork-main",
                  content := "hello world", embedding := [1, 2],
                  metadata := [("context_type", "preference")],
                  created_at := 42, updated_at := 42 }])
        "mem_000000000000").2 =
      .ok { id := "mem_000000000000", text := "hello world",
            metadata := [("context_type", "preference")], created_at := 42 } := by
  have hlen : ("hello world".length ≤ 100000) := by decide
  exact ⟨hlen, (claim_C2_store_get_roundtrip ⟨"fork-main"⟩
    (fun _ => .ok [1, 2]) "mem_000000000000" 42 [] "hello world"
    [("context_type", "preference")] [1, 2] hlen rfl
    (fun row hrow => absurd hrow (List.not_mem_nil row))).2⟩

/-- Claim C6: search raises `InvalidArgument` exactly when the mode is not
one of vector, chronological, hybrid, or the mode is vector or hybrid and
the query is absent or empty; in particular a vector search without a
query fails with `InvalidArgument` while a chronological search without a
query succeeds when the store responds. -/
theorem claim_C6_invalid_argument_iff (c : Client)
    (embedF : String → Except String Embedding) (tursoErr : Option String)
    (dist : Embedding → Embedding → ℚ) (db : DB) (query : Option String)
    (limit : ℕ) (mode : String) :
    ((∃ msg, (search c embedF tursoErr dist db query limit mode).2 =
        .error (.invalidArgument msg)) ↔
      (¬(mode = "vector" ∨ mode = "chronological" ∨ mode = "hybrid") ∨
        ((mode = "vector" ∨ mode = "hybrid") ∧
          (query = none ∨ query = some "")))) ∧
    (∃ msg, (search c embedF tursoErr dist db none limit "vector").2 =
      .error (.invalidArgument msg)) ∧
    (∃ r, (search c embedF none dist db none limit "chronological").2 =
      .ok r) := by
  have hvector : ∀ (q : String), q ≠ "" →
      ¬∃ msg, (search c embedF tursoErr dist db (some q) limit "vector").2 =
        .error (.invalidArgument msg) := by
    intro q hq ⟨msg, hmsg⟩
    rcases he : embedF q with e | qe
    · simp [search, hq, he] at hmsg
    · rcases tursoErr with _ | e <;> simp [search, hq, he] at hmsg
  have hhybrid : ∀ (q : String), q ≠ "" →
      ¬∃ msg, (search c embedF tursoErr dist db (some q) limit "hybrid").2 =
        .error (.invalidArgument msg) := by
    intro q hq ⟨msg, hmsg⟩
    rcases he : embedF q with e | qe
    · simp [search, hq, he] at hmsg
    · rcases tursoErr with _ | e <;> simp [search, hq, he] at hmsg
  refine ⟨?_, ⟨"query required for vector search", by simp [search]⟩,
    ⟨{ results := chronoItems c db limit,
       namespace_str := "agent_" ++ c.agent_id,
       mode := "chronological" }, by simp [search]⟩⟩
  by_cases hv : mode = "vector"
  · subst hv
    rcases query with _ | q
    · constructor
      · intro _
        exact Or.inr ⟨Or.inl rfl, Or.inl rfl⟩
      · intro _
        exact ⟨"query required for vector search", by simp [search]⟩
    · by_cases hq : q = ""
      · subst hq
        constructor
        · intro _
          exact Or.inr ⟨Or.inl rfl, Or.inr rfl⟩
        · intro _
          exact ⟨"query required for vector search", by simp [search]⟩
      · refine iff_of_false (hvector q hq) ?_
        rintro (h | ⟨_, h | h⟩)
        · exact h (Or.inl rfl)
        · cases h
        · exact hq (Option.some.inj h)
  · by_cases hc : mode = "chronological"
    · subst hc
      refine iff_of_false ?_ ?_
      · rintro ⟨msg, hmsg⟩
        rcases tursoErr with _ | e <;> simp [search] at hmsg
      · rintro (h | ⟨h | h, _⟩)
        · exact h (Or.inr (Or.inl rfl))
        · exact absurd h (by decide)
        · exact absurd h (by decide)
    · by_cases hh : mode = "hybrid"
      · subst hh
        rcases query with _ | q
        · constructor
          · intro _
            exact Or.inr ⟨Or.inr rfl, Or.inl rfl⟩
          · intro _
            exact ⟨"query required for hybrid search", by simp [search]⟩
        · by_cases hq : q = ""
          · subst hq
            constructor
            · intro _
              exact Or.inr ⟨Or.inr rfl, Or.inr rfl⟩
            · intro _
              exact ⟨"query required for hybrid search", by simp [search]⟩
          · refine iff_of_false (hhybrid q hq) ?_
            rintro (h | ⟨h | h, hq2 | hq2⟩)
            · exact h (Or.inr (Or.inr rfl))
            · exact absurd h (by decide)
            · exact absurd h (by decide)
            · cases hq2
            · exact hq (Option.some.inj hq2)
      · have hbad : ¬(mode = "vector" ∨ mode = "chronological" ∨ mode = "hybrid") := by
          rintro (h | h | h) <;> [exact hv h; exact hc h; exact hh h]
        constructor
        · intro _
          exact Or.inl hbad
        · intro _
          refine ⟨"mode must be \x27vector\x27, \x27chronological\x27, or \x27hybrid\x27", ?_⟩
          simp [search, hbad]

/-- Claim C7 counterexample: with the query absent, hybrid mode and vector
mode do not produce the same error — the raised `InvalidArgument` messages
interpolate the mode name (`f"query required for {mode} search"`), so the
two outcomes differ in more than the mode field echoed in the
`SearchResult`. -/
theorem claim_C7_counterexample :
    (search ⟨"fork-main"⟩ (fun _ => .ok [1]) none (fun _ _ => 0) [] none 10
        "hybrid").2 =
      .error (.invalidArgument "query required for hybrid search") ∧
    (search ⟨"fork-main"⟩ (fun _ => .ok [1]) none (fun _ _ => 0) [] none 10
        "vector").2 =
      .error (.invalidArgument "query required for vector search") ∧
    (search ⟨"fork-main"⟩ (fun _ => .ok [1]) none (fun _ _ => 0) [] none 10
        "hybrid").2 ≠
      (search ⟨"fork-main"⟩ (fun _ => .ok [1]) none (fun _ _ => 0) [] none 10
        "vector").2 := by
  have hh : (search ⟨"fork-main"⟩ (fun _ => .ok [1]) none (fun _ _ => 0) []
      none 10 "hybrid").2 =
      .error (.invalidArgument "query required for hybrid search") := by
    simp [search]
  have hv : (search ⟨"fork-main"⟩ (fun _ => .ok [1]) none (fun _ _ => 0) []
      none 10 "vector").2 =
      .error (.invalidArgument "query required for vector search") := by
    simp [search]
  refine ⟨hh, hv, ?_⟩
  rw [hh, hv]
  intro h
  exact absurd (MemErr.invalidArgument.inj (Except.error.inj h)) (by decide)

/-- Claim C7 (amended): hybrid mode performs the same network calls and
has the same mechanics as vector mode: a successful hybrid search returns
exactly the vector-mode result with only the echoed mode field changed,
and a failing hybrid search fails with the same error kind as vector mode
(the `InvalidArgument` message interpolates the mode name, which is the
only further difference). -/
theorem claim_C7_hybrid_is_vector (c : Client)
    (embedF : String → Except String Embedding) (tursoErr : Option String)
    (dist : Embedding → Embedding → ℚ) (db : DB) (query : Option String)
    (limit : ℕ) :
    (search c embedF tursoErr dist db query limit "hybrid").1 =
      (search c embedF tursoErr dist db query limit "vector").1 ∧
    (∀ r, (search c embedF tursoErr dist db query limit "vector").2 = .ok r →
      (search c embedF tursoErr dist db query limit "hybrid").2 =
        .ok { r with mode := "hybrid" }) ∧
    (∀ r, (search c embedF tursoErr dist db query limit "hybrid").2 = .ok r →
      ∃ r', (search c embedF tursoErr dist db query limit "vector").2 = .ok r' ∧
        r = { r' with mode := "hybrid" }) ∧
    (∀ e, (search c embedF tursoErr dist db query limit "vector").2 = .error e →
      ∃ e', (search c embedF tursoErr dist db query limit "hybrid").2 = .error e' ∧
        MemErr.kind e' = MemErr.kind e) ∧
    (∀ e, (search c embedF tursoErr dist db query limit "hybrid").2 = .error e →
      ∃ e', (search c embedF tursoErr dist db query limit "vector").2 = .error e' ∧
        MemErr.kind e' = MemErr.kind e) := by
  by_cases hq : query.getD "" = ""
  · have hv : (search c embedF tursoErr dist db query limit "vector").2 =
        .error (.invalidArgument "query required for vector search") := by
      simp [search, hq]
    have hh : (search c embedF tursoErr dist db query limit "hybrid").2 =
        .error (.invalidArgument "query required for hybrid search") := by
      simp [search, hq]
    refine ⟨by simp [search, hq], ?_, ?_, ?_, ?_⟩
    · intro r h; rw [hv] at h; simp at h
    · intro r h; rw [hh] at h; simp at h
    · intro e h
      rw [hv] at h
      cases Except.error.inj h
      exact ⟨_, hh, rfl⟩
    · intro e h
      rw [hh] at h
      cases Except.error.inj h
      exact ⟨_, hv, rfl⟩
  · rcases he : embedF (query.getD "") with e₀ | qemb
    · have hv : (search c embedF tursoErr dist db query limit "vector").2 =
          .error (.embeddingUnavailable ("Ollama embedding error: " ++ e₀)) := by
        simp [search, hq, he]
      have hh : (search c embedF tursoErr dist db query limit "hybrid").2 =
          .error (.embeddingUnavailable ("Ollama embedding error: " ++ e₀)) := by
        simp [search, hq, he]
      refine ⟨by simp [search, hq, he], ?_, ?_, ?_, ?_⟩
      · intro r h; rw [hv] at h; simp at h
      · intro r h; rw [hh] at h; simp at h
      · intro e h
        rw [hv] at h
        cases Except.error.inj h
        exact ⟨_, hh, rfl⟩
      · intro e h
        rw [hh] at h
        cases Except.error.inj h
        exact ⟨_, hv, rfl⟩
    · rcases tursoErr with _ | e₀
      · have hv : (search c embedF none dist db query limit "vector").2 =
            .ok { results := vectorItems c dist db qemb limit,
                  namespace_str := "agent_" ++ c.agent_id,
                  mode := "vector" } := by
          simp [search, hq, he]
        have hh : (search c embedF none dist db query limit "hybrid").2 =
            .ok { results := vectorItems c dist db qemb limit,
                  namespace_str := "agent_" ++ c.agent_id,
                  mode := "hybrid" } := by
          simp [search, hq, he]
        refine ⟨by simp [search, hq, he], ?_, ?_, ?_, ?_⟩
        · intro r h
          rw [hv] at h
          cases Except.ok.inj h
          exact hh
        · intro r h
          rw [hh] at h
          cases Except.ok.inj h
          exact ⟨_, hv, rfl⟩
        · intro e h; rw [hv] at h; simp at h
        · intro e h; rw [hh] at h; simp at h
      · have hv : (search c embedF (some e₀) dist db query limit "vector").2 =
            .error (.storeError ("Turso search error: " ++ e₀)) := by
          simp [search, hq, he]
        have hh : (search c embedF (some e₀) dist db query limit "hybrid").2 =
            .error (.storeError ("Turso search error: " ++ e₀)) := by
          simp [search, hq, he]
        refine ⟨by simp [search, hq, he], ?_, ?_, ?_, ?_⟩
        · intro r h; rw [hv] at h; simp at h
        · intro r h; rw [hh] at h; simp at h
        · intro e h
          rw [hv] at h
          cases Except.error.inj h
          exact ⟨_, hh, rfl⟩
        · intro e h
          rw [hh] at h
          cases Except.error.inj h
          exact ⟨_, hv, rfl⟩

/-- Witness for the amended claim C7 at a concrete successful search. -/
theorem claim_C7_witness :
    (search ⟨"fork-main"⟩ (fun _ => .ok [1]) none (fun _ _ => 0) []
        (some "hello") 10 "vector").2 =
      .ok { results := [], namespace_str := "agent_fork-main",
            mode := "vector" } ∧
    (search ⟨"fork-main"⟩ (fun _ => .ok [1]) none (fun _ _ => 0) []
        (some "hello") 10 "hybrid").2 =
      .ok { results := [], namespace_str := "agent_fork-main",
            mode := "hybrid" } := by
  have hv : (search ⟨"fork-main"⟩ (fun _ => .ok [1]) none (fun _ _ => 0) []
      (some "hello") 10 "vector").2 =
      .ok { results := [], namespace_str := "agent_fork-main",
            mode := "vector" } := by
    simp [search, vectorItems, agentRows]
  exact ⟨hv, (claim_C7_hybrid_is_vector ⟨"fork-main"⟩ (fun _ => .ok [1]) none
    (fun _ _ => 0) [] (some "hello") 10).2.1 _ hv⟩

/-- A retrieval pass finds something exactly when the underlying vector
search succeeds and some raw result clears the threshold. -/
theorem retrieve_found_iff (c : Client)
    (embedF : String → Except String Embedding) (t : Option String)
    (dist : Embedding → Embedding → ℚ) (db : DB) (q : String) (ms : ℚ)
    (lim : ℕ) :
    (retrieve_memories c embedF t dist db q ms lim).found = true ↔
      ∃ r, (search c embedF t dist db (some q) lim "vector").2 = .ok r ∧
        ∃ it ∈ r.results, ms ≤ it.similarity := by
  unfold retrieve_memories
  cases hres : (search c embedF t dist db (some q) lim "vector").2 with
  | error e => simp
  | ok res =>
    simp only [decide_eq_true_eq, Except.ok.injEq]
    rw [List.length_pos, Ne, List.filter_eq_nil_iff]
    push_neg
    constructor
    · rintro ⟨it, hit, hp⟩
      exact ⟨res, rfl, it, hit, of_decide_eq_true hp⟩
    · rintro ⟨r, hr, it, hit, hp⟩
      cases hr
      exact ⟨it, hit, decide_eq_true hp⟩

/-- A failed retrieval pass is converted into a found-nothing result that
carries the error message. -/
theorem retrieve_error_degrades (c : Client)
    (embedF : String → Except String Embedding) (t : Option String)
    (dist : Embedding → Embedding → ℚ) (db : DB) (q : String) (ms : ℚ)
    (lim : ℕ) (e : MemErr)
    (h : (search c embedF t dist db (some q) lim "vector").2 = .error e) :
    retrieve_memories c embedF t dist db q ms lim =
      { found := false, memories := [], error := some e.message } := by
  unfold retrieve_memories
  rw [h]

/-- Claim C9: `initialize_session` runs four retrieval passes at
thresholds and limits (0.60, 3), (0.65, 5), (0.65, 3), (0.65, 3); each
pass finds something exactly when some raw result of its search clears its
threshold; a pass whose retrieval fails contributes zero results instead
of aborting; the digest is the fixed-order concatenation of the sections
of the passes that found something (heading plus body, nothing otherwise);
and when all four passes found nothing the returned string is the
canonical fresh-start sentinel, not an empty digest. -/
theorem claim_C9_session_digest (c : Client)
    (embedF : String → Except String Embedding) (t1 t2 t3 t4 : Option String)
    (dist : Embedding → Embedding → ℚ) (db : DB) :
    ((retrieve_memories c embedF t1 dist db bridgesQuery 0.6 3).found = true ↔
      ∃ r, (search c embedF t1 dist db (some bridgesQuery) 3 "vector").2 = .ok r ∧
        ∃ it ∈ r.results, (0.6 : ℚ) ≤ it.similarity) ∧
    ((retrieve_memories c embedF t2 dist db prefsQuery 0.65 5).found = true ↔
      ∃ r, (search c embedF t2 dist db (some prefsQuery) 5 "vector").2 = .ok r ∧
        ∃ it ∈ r.results, (0.65 : ℚ) ≤ it.similarity) ∧
    ((retrieve_memories c embedF t3 dist db projectsQuery 0.65 3).found = true ↔
      ∃ r, (search c embedF t3 dist db (some projectsQuery) 3 "vector").2 = .ok r ∧
        ∃ it ∈ r.results, (0.65 : ℚ) ≤ it.similarity) ∧
    ((retrieve_memories c embedF t4 dist db consciousnessQuery 0.65 3).found = true ↔
      ∃ r, (search c embedF t4 dist db (some consciousnessQuery) 3 "vector").2 = .ok r ∧
        ∃ it ∈ r.results, (0.65 : ℚ) ≤ it.similarity) ∧
    (∀ q ms lim t e,
      (search c embedF t dist db (some q) lim "vector").2 = .error e →
      retrieve_memories c embedF t dist db q ms lim =
        { found := false, memories := [], error := some e.message }) ∧
    (initialize_session c embedF t1 t2 t3 t4 dist db =
      if (initSessionParts (retrieve_memories c embedF t1 dist db bridgesQuery 0.6 3)
            (retrieve_memories c embedF t2 dist db prefsQuery 0.65 5)
            (retrieve_memories c embedF t3 dist db projectsQuery 0.65 3)
            (retrieve_memories c embedF t4 dist db consciousnessQuery 0.65 3)).isEmpty
      then freshStart
      else String.intercalate "\n"
        (initSessionParts (retrieve_memories c embedF t1 dist db bridgesQuery 0.6 3)
          (retrieve_memories c embedF t2 dist db prefsQuery 0.65 5)
          (retrieve_memories c embedF t3 dist db projectsQuery 0.65 3)
          (retrieve_memories c embedF t4 dist db consciousnessQuery 0.65 3))) ∧
    ((retrieve_memories c embedF t1 dist db bridgesQuery 0.6 3).found = false →
      (retrieve_memories c embedF t2 dist db prefsQuery 0.65 5).found = false →
      (retrieve_memories c embedF t3 dist db projectsQuery 0.65 3).found = false →
      (retrieve_memories c embedF t4 dist db consciousnessQuery 0.65 3).found = false →
      initialize_session c embedF t1 t2 t3 t4 dist db = freshStart) ∧
    freshStart ≠ "" := by
  refine ⟨retrieve_found_iff c embedF t1 dist db bridgesQuery 0.6 3,
    retrieve_found_iff c embedF t2 dist db prefsQuery 0.65 5,
    retrieve_found_iff c embedF t3 dist db projectsQuery 0.65 3,
    retrieve_found_iff c embedF t4 dist db consciousnessQuery 0.65 3,
    fun q ms lim t e h => retrieve_error_degrades c embedF t dist db q ms lim e h,
    rfl, ?_, by simp [freshStart]⟩
  intro h1 h2 h3 h4
  simp [initialize_session, initSessionParts, h1, h2, h3, h4]

/-- Witness for claim C9: with the embedding service down, every pass
fails, contributes nothing, and the digest is the fresh-start sentinel. -/
theorem claim_C9_witness :
    (search ⟨"fork-main"⟩ (fun _ => .error "connection refused") none
        (fun _ _ => 0) [] (some bridgesQuery) 3 "vector").2 =
      .error (.embeddingUnavailable "Ollama embedding error: connection refused") ∧
    initialize_session ⟨"fork-main"⟩ (fun _ => .error "connection refused")
        none none none none (fun _ _ => 0) [] = freshStart := by
  have herr : ∀ (q : String), q ≠ "" → ∀ (lim : ℕ),
      (search ⟨"fork-main"⟩ (fun _ => .error "connection refused") none
        (fun _ _ => 0) [] (some q) lim "vector").2 =
      .error (.embeddingUnavailable "Ollama embedding error: connection refused") := by
    intro q hq lim
    simp [search, hq]
  have hC := claim_C9_session_digest ⟨"fork-main"⟩
    (fun _ => .error "connection refused") none none none none (fun _ _ => 0) []
  have hdeg := hC.2.2.2.2.1
  have hb := hdeg bridgesQuery 0.6 3 none _ (herr bridgesQuery (by decide) 3)
  have hp := hdeg prefsQuery 0.65 5 none _ (herr prefsQuery (by decide) 5)
  have hpr := hdeg projectsQuery 0.65 3 none _ (herr projectsQuery (by decide) 3)
  have hco := hdeg consciousnessQuery 0.65 3 none _
    (herr consciousnessQuery (by decide) 3)
  refine ⟨herr bridgesQuery (by decide) 3, ?_⟩
  exact hC.2.2.2.2.2.2.1 (by rw [hb]) (by rw [hp]) (by rw [hpr]) (by rw [hco])

end ZoLocalMemory
